import Mathlib

/-!
Shallow embedding of `docker/tool.py`, the QMENTA entry point for the OXASL
pipeline, together with theorems settling the frozen claims about it.

The script is procedural glue around external processes and a platform
`context` object.  We embed it as pure Lean functions over:

* an oracle `CtxO` giving the outcome of every external interaction
  (platform file queries, settings, child processes, filesystem probes);
* an explicit state `St` recording every observable effect the script
  performs (environment assignments, `set_progress` calls, uploads, file
  writes, copies, converter invocations, and phase-entry events used to
  state ordering properties).

Python exceptions are modelled by the inductive `PyExc`; a function that can
raise returns `Except PyExc α × St` (the state is threaded through errors,
as Python side effects performed before an exception persist).

Python's `str.lower` is modelled for the ASCII range (the only range the
settings values in the claims exercise); `str.strip` strips the Python
whitespace characters from both ends.
-/

/-- ASCII lowering of one character, as Python `str.lower` acts on ASCII. -/
def pyLowerChar (c : Char) : Char :=
  if 65 ≤ c.toNat ∧ c.toNat ≤ 90 then Char.ofNat (c.toNat + 32) else c

/-- Model of Python `str.lower` (ASCII range). -/
def pyLower (s : String) : String := String.mk (s.data.map pyLowerChar)

/-- Python `str.isspace` characters relevant to `str.strip`. -/
def pyIsSpace (c : Char) : Bool :=
  c = ' ' || c = '\t' || c = '\n' || c = '\r' || c = '\x0b' || c = '\x0c'

/-- Model of Python `str.strip()`: drop whitespace from both ends. -/
def pyStrip (s : String) : String :=
  String.mk (((s.data.dropWhile pyIsSpace).reverse.dropWhile pyIsSpace).reverse)

/-- Split of a character list at every occurrence of `sep`, as Python
`str.split(sep)` acts for a one-character separator. -/
def pySplitChar (sep : Char) : List Char → List Char → List (List Char)
  | [], acc => [acc.reverse]
  | c :: rest, acc =>
      if c = sep then acc.reverse :: pySplitChar sep rest []
      else pySplitChar sep rest (c :: acc)

/-- Model of Python `str.split(sep)` for a one-character separator. -/
def pySplit (s : String) (sep : Char) : List String :=
  (pySplitChar sep s.data []).map String.mk

/-- Model of `os.path.basename` for the slash-separated paths the script uses. -/
def basename (p : String) : String := (pySplit p '/').getLastD ""

/-- Model of Python `str.endswith`: suffix test on the character list. -/
def pyEndsWith (s suffix : String) : Bool := List.isSuffixOf suffix.data s.data

/-- Python `repr` of a list of strings, as an f-string renders `oxasl_cmd`. -/
def pyListStr (xs : List String) : String :=
  "[" ++ String.intercalate ", " (xs.map (fun s => "\x27" ++ s ++ "\x27")) ++ "]"

/-- Python `str` of a shape tuple, as an f-string renders `nii.shape`. -/
def pyShapeStr (xs : List Nat) : String :=
  "(" ++ String.intercalate ", " (xs.map toString) ++ ")"

/-- Python exceptions distinguished by the script's `except` clauses. -/
inductive PyExc where
  /-- `RuntimeError(msg)` raised explicitly by the script. -/
  | runtimeError (msg : String)
  /-- `subprocess.CalledProcessError` with its captured `output`. -/
  | calledProcessError (output : String)
  /-- `KeyError` from a missing settings key. -/
  | keyError (key : String)
  /-- any other exception (platform errors, `nibabel` errors, ...). -/
  | other (msg : String)
deriving Repr, DecidableEq

/-- Phase-entry markers recorded by the embedding, used to state the
temporal-ordering claim about `run`. -/
inductive Event where
  | setupFsl
  | getInput (key : String)
  | labelling
  | timings
  | invokeOxasl
  | uploadOutputs
  | uploadLog
deriving Repr, DecidableEq

/-- Model of a platform file handler: `download(dir)` returns the local path
of the downloaded file. -/
structure FileHandler where
  download : String → String

/-- Observable effects accumulated by the script, in order of occurrence. -/
structure St where
  /-- `os.environ` assignments, most recent first (lookup takes the head). -/
  env : List (String × String) := []
  /-- `context.set_progress(value, message)` calls, in order. -/
  progress : List (Nat × String) := []
  /-- successful `context.upload_file(path, name)` calls, in order. -/
  uploads : List (String × String) := []
  /-- file writes `(path, contents)` performed with `open(..., "w")`. -/
  writes : List (String × String) := []
  /-- `shutil.copy(src, dstdir)` calls. -/
  copies : List (String × String) := []
  /-- keys on which the `dcm2niix` converter was invoked. -/
  converterCalls : List String := []
  /-- phase-entry events, in order. -/
  events : List Event := []
deriving Repr, DecidableEq

/-- Oracle fixing the outcome of every external interaction of one run. -/
structure CtxO where
  /-- `context.get_files(key, ...)`: a list of handlers, or any exception. -/
  getFiles : String → Except PyExc (List FileHandler)
  /-- `context.get_settings()`, an association list of settings values. -/
  settings : List (String × String)
  /-- output of the one-shot `env -i sh -c ". .../fsl.sh && env"` child
  process, or the `output` of its `CalledProcessError`. -/
  fslEnv : Except String String
  /-- result of `dcm2niix` on the key's DICOM dir: `()`, or the `output` of
  its `CalledProcessError`. -/
  dcm2niix : String → Except String Unit
  /-- `nib.load(path).shape`, or any exception from `nibabel`. -/
  nibShape : String → Except PyExc (List Nat)
  /-- `os.listdir(dir)`. -/
  listdir : String → List String
  /-- `subprocess.check_output(oxasl_cmd)`: stdout, or the `output` of its
  `CalledProcessError`. -/
  oxasl : List String → Except String String
  /-- `os.path.exists("oxasl_output/logfile")` after a failed oxasl run. -/
  logfileExists : Bool
  /-- contents of `version.txt`, or any exception opening/reading it. -/
  versionFile : Except PyExc String
  /-- `context.fetch_analysis_data()`. -/
  fetchAnalysis : Except PyExc Unit
  /-- `context.upload_file(path, name)`: success, or any platform exception. -/
  uploadResult : String → String → Except PyExc Unit

/-- Lookup in the settings dict; a missing key raises `KeyError`. -/
def getSetting (settings : List (String × String)) (key : String) :
    Except PyExc String :=
  match settings.lookup key with
  | some v => Except.ok v
  | none => Except.error (PyExc.keyError key)

/-- Message of an exception as Python prints it at the head of a traceback. -/
def excMessage : PyExc → String
  | PyExc.runtimeError m => "RuntimeError: " ++ m
  | PyExc.calledProcessError out =>
      "subprocess.CalledProcessError: output " ++ out
  | PyExc.keyError k => "KeyError: " ++ k
  | PyExc.other m => m

/-- Model of `traceback.format_exc()` for the active exception. -/
def format_exc (e : PyExc) : String :=
  "Traceback (most recent call last):\n" ++ excMessage e

/-- One iteration of the `for line in ...` loop of `setup_fsl`: unpacking
`key, value = line.split("=")` succeeds exactly when the split has two
parts; otherwise the `ValueError` handler emits a warning progress message. -/
def processLine (progressVal : Nat) (st : St) (line : String) : St :=
  match pySplit line '=' with
  | [k, v] => { st with env := (k, v) :: st.env }
  | _ =>
      { st with progress := st.progress ++
          [(progressVal, "WARNING: Setting up FSL - failed to parse " ++ line)] }

/-- Embedding of `setup_fsl(context, progress)`. -/
def setup_fsl (ctx : CtxO) (progressVal : Nat) (st : St) :
    Except PyExc Unit × St :=
  let st := { st with events := st.events ++ [Event.setupFsl] }
  let st := { st with env := ("FSLDIR", "/usr/local/fsl") :: st.env }
  match ctx.fslEnv with
  | Except.error out =>
      (Except.error (PyExc.runtimeError
        ("WARNING: Failed to execute FSL setup script: " ++ out)), st)
  | Except.ok output =>
      let st := (pySplit output '\n').foldl (processLine progressVal) st
      (Except.ok (), { st with progress := st.progress ++
          [(progressVal, "Set up FSL environment")] })

/-- Body of the `try` block around `dcm2niix` in `get_input_data`; a
`CalledProcessError` from any step is caught by the enclosing handler, any
other exception propagates past it. -/
def dicomConvert (ctx : CtxO) (key name niftidir : String)
    (progressVal : Nat) (st : St) : Except PyExc String × St :=
  let st := { st with converterCalls := st.converterCalls ++ [key] }
  match ctx.dcm2niix key with
  | Except.error out => (Except.error (PyExc.calledProcessError out), st)
  | Except.ok _ =>
    let st := { st with progress := st.progress ++
        ((ctx.listdir niftidir).map
          (fun f => (progressVal, "DCM2NIIX on " ++ name ++ " output: " ++ f))) }
    let path := niftidir ++ "/" ++ key ++ ".nii.gz"
    match ctx.nibShape path with
    | Except.error e => (Except.error e, st)
    | Except.ok shape =>
      let st := { st with progress := st.progress ++
          [(progressVal, "Dimensions of " ++ path ++ ": " ++ pyShapeStr shape)] }
      match ctx.uploadResult path (key ++ ".nii.gz") with
      | Except.error e => (Except.error e, st)
      | Except.ok _ =>
          (Except.ok path,
           { st with uploads := st.uploads ++ [(path, key ++ ".nii.gz")] })

/-- The DICOM branch of `get_input_data`: run the conversion `try` block,
turn a caught `CalledProcessError` into the `RuntimeError` naming the key,
and on success report the data and extend the command. -/
def convertAndExtend (ctx : CtxO) (oxasl_cmd : List String)
    (key name option niftidir : String) (progressVal : Nat) (st : St) :
    Except PyExc (List String) × St :=
  match dicomConvert ctx key name niftidir progressVal st with
  | (Except.error (PyExc.calledProcessError out), st) =>
      (Except.error (PyExc.runtimeError
        ("Failed to perform DCM-NII conversion on " ++ key ++ ": " ++ out)),
       st)
  | (Except.error e, st) => (Except.error e, st)
  | (Except.ok path, st) =>
      let st := { st with progress := st.progress ++
          [(progressVal, "Got " ++ name ++ " data: " ++ path)] }
      (Except.ok (oxasl_cmd ++ [option, path]), st)

/-- Embedding of
`get_input_data(oxasl_cmd, context, key, name, option, progress, required)`.
It returns the extended command list (Python mutates the list in place). -/
def get_input_data (ctx : CtxO) (oxasl_cmd : List String)
    (key name option : String) (progressVal : Nat) (required : Bool)
    (st : St) : Except PyExc (List String) × St :=
  let st := { st with events := st.events ++ [Event.getInput key] }
  let file_handlers :=
    match ctx.getFiles key with
    | Except.error _ => []
    | Except.ok fhs => fhs
  if file_handlers.length = 0 then
    if required then
      (Except.error (PyExc.runtimeError
        ("Required data " ++ key ++ " not provided")), st)
    else
      (Except.ok oxasl_cmd, st)
  else if file_handlers.length > 1 then
    (Except.error (PyExc.runtimeError
      ("Expected single input file for " ++ key ++ " - found " ++
        toString file_handlers.length ++ " instead")), st)
  else
    let dicomdir := "/root/dicom/" ++ key
    let niftidir := "/root/nifti/" ++ key
    let path := (file_handlers.headD ⟨fun _ => ""⟩).download dicomdir
    let st := { st with progress := st.progress ++
        [(progressVal, "Downloaded " ++ name ++ " data: " ++ path)] }
    if pyEndsWith path ".nii" || pyEndsWith path ".nii.gz" then
      let st := { st with copies := st.copies ++ [(path, niftidir)] }
      let path := niftidir ++ "/" ++ basename path
      let st := { st with progress := st.progress ++
          [(progressVal, "Got " ++ name ++ " data: " ++ path)] }
      (Except.ok (oxasl_cmd ++ [option, path]), st)
    else
      let st := { st with progress := st.progress ++
          ((ctx.listdir path).map
            (fun f => (progressVal, "DCM file found in " ++ path ++ ": " ++ f))) }
      convertAndExtend ctx oxasl_cmd key name option niftidir progressVal st

/-- Embedding of `get_labelling(oxasl_cmd, context, progress)`. -/
def get_labelling (ctx : CtxO) (oxasl_cmd : List String) (progressVal : Nat)
    (st : St) : Except PyExc (List String) × St :=
  let st := { st with events := st.events ++ [Event.labelling] }
  match getSetting ctx.settings "labelling" with
  | Except.error e => (Except.error e, st)
  | Except.ok raw =>
    let labelling := pyStrip (pyLower raw)
    let st := { st with progress := st.progress ++
        [(progressVal, "labelling=" ++ labelling)] }
    let casl := pyLower labelling = "pcasl"
    if casl then (Except.ok (oxasl_cmd ++ ["--casl"]), st)
    else (Except.ok oxasl_cmd, st)

/-- Embedding of `get_timings(oxasl_cmd, context, progress)`. -/
def get_timings (ctx : CtxO) (oxasl_cmd : List String) (progressVal : Nat)
    (st : St) : Except PyExc (List String) × St :=
  let st := { st with events := st.events ++ [Event.timings] }
  match getSetting ctx.settings "plds" with
  | Except.error e => (Except.error e, st)
  | Except.ok plds =>
    if oxasl_cmd.contains "--casl" then
      (Except.ok (oxasl_cmd ++ ["--plds", plds]),
       { st with progress := st.progress ++ [(progressVal, "PLDS=" ++ plds)] })
    else
      (Except.ok (oxasl_cmd ++ ["--tis", plds]),
       { st with progress := st.progress ++ [(progressVal, "TIs=" ++ plds)] })

/-- The `for idx, fname in enumerate(os.listdir("oxasl_output/output/native"))`
upload loop of `run`. -/
def uploadOutputs (ctx : CtxO) (files : List String) (idx : Nat) (st : St) :
    Except PyExc Unit × St :=
  match files with
  | [] => (Except.ok (), st)
  | fname :: rest =>
    let st := { st with progress := st.progress ++
        [(71 + idx, "Uploading " ++ fname)] }
    match ctx.uploadResult ("oxasl_output/output/native/" ++ fname) fname with
    | Except.error e => (Except.error e, st)
    | Except.ok _ =>
        let st := { st with uploads := st.uploads ++
            [("oxasl_output/output/native/" ++ fname, fname)] }
        uploadOutputs ctx rest (idx + 1) st

/-- Body of the `try` block around `subprocess.check_output(oxasl_cmd)` in
`run`; a `CalledProcessError` from any step inside it is caught by the
enclosing handler, any other exception propagates. -/
def oxaslTry (ctx : CtxO) (oxasl_cmd : List String) (st : St) :
    Except PyExc Unit × St :=
  let st := { st with events := st.events ++ [Event.invokeOxasl] }
  match ctx.oxasl oxasl_cmd with
  | Except.error out => (Except.error (PyExc.calledProcessError out), st)
  | Except.ok _ =>
    let st := { st with progress := st.progress ++
        [(50, "OXASL completed"), (70, "Uploading OXASL output data")] }
    let st := { st with events := st.events ++ [Event.uploadOutputs] }
    uploadOutputs ctx (ctx.listdir "oxasl_output/output/native") 0 st

/-- Tail of `run` shared by the oxasl success and failure paths: upload the
logfile as `logfile.txt` and report completion. -/
def uploadLogTail (ctx : CtxO) (st : St) : Except PyExc Unit × St :=
  let st := { st with progress := st.progress ++
      [(80, "Uploading OXASL logfile")] }
  let st := { st with events := st.events ++ [Event.uploadLog] }
  match ctx.uploadResult "oxasl_output/logfile" "logfile.txt" with
  | Except.error e => (Except.error e, st)
  | Except.ok _ =>
    let st := { st with uploads := st.uploads ++
        [("oxasl_output/logfile", "logfile.txt")] }
    (Except.ok (), { st with progress := st.progress ++ [(100, "Complete!")] })

/-- The `except subprocess.CalledProcessError` handler of the oxasl
invocation with its logfile fallback, followed by the shared logfile-upload
tail. -/
def handleOxaslResult (ctx : CtxO) : Except PyExc Unit × St →
    Except PyExc Unit × St
  | (Except.ok _, st) => uploadLogTail ctx st
  | (Except.error (PyExc.calledProcessError out), st) =>
      if ctx.logfileExists then
        let st := { st with progress := st.progress ++
            [(60, "OXASL command failed - logfile found")] }
        uploadLogTail ctx st
      else
        let st := { st with progress := st.progress ++
            [(60, "OXASL command failed - using stdout as log")] }
        let st := { st with writes := st.writes ++
            [("oxasl_output/logfile", out)] }
        uploadLogTail ctx st
  | (Except.error e, st) => (Except.error e, st)

/-- Invocation of the external oxasl process and everything after it. -/
def runOxaslAndUpload (ctx : CtxO) (oxasl_cmd : List String) (st : St) :
    Except PyExc Unit × St :=
  let st := { st with progress := st.progress ++
      [(30, "Running OXASL: " ++ pyListStr oxasl_cmd)] }
  handleOxaslResult ctx (oxaslTry ctx oxasl_cmd st)

/-- The version string read at the start of `run`: contents of
`version.txt`, or `"(unknown)"` when reading it raises (the bare `except`
there swallows the exception after printing a traceback to stderr). -/
def readVersion (ctx : CtxO) : String :=
  match ctx.versionFile with
  | Except.ok v => v
  | Except.error _ => "(unknown)"

/-- Body of the outer `try` block of `run`. -/
def runBody (ctx : CtxO) (st : St) : Except PyExc Unit × St :=
  let st := { st with progress := st.progress ++
      [(0, "Running OXASL analysis tool v" ++ readVersion ctx)] }
  match ctx.fetchAnalysis with
  | Except.error e => (Except.error e, st)
  | Except.ok _ =>
  match setup_fsl ctx 1 st with
  | (Except.error e, st) => (Except.error e, st)
  | (Except.ok _, st) =>
  let oxasl_cmd := ["oxasl", "-o", "oxasl_output", "--debug"]
  let st := { st with progress := st.progress ++
      [(10, "Getting input data in NIFTI format")] }
  match get_input_data ctx oxasl_cmd "asl" "ASL" "-i" 11 true st with
  | (Except.error e, st) => (Except.error e, st)
  | (Except.ok oxasl_cmd, st) =>
  match get_input_data ctx oxasl_cmd "struc" "structural" "-s" 12 false st with
  | (Except.error e, st) => (Except.error e, st)
  | (Except.ok oxasl_cmd, st) =>
  let st := { st with progress := st.progress ++
      [(20, "Getting input parameters")] }
  match get_labelling ctx oxasl_cmd 21 st with
  | (Except.error e, st) => (Except.error e, st)
  | (Except.ok oxasl_cmd, st) =>
  match get_timings ctx oxasl_cmd 22 st with
  | (Except.error e, st) => (Except.error e, st)
  | (Except.ok oxasl_cmd, st) =>
  runOxaslAndUpload ctx oxasl_cmd st

/-- Embedding of `run(context)`: the outer bare `except` catches every
exception, formats it as a traceback and reports it through a single
`set_progress` call at value 100; `run` always returns normally. -/
def run (ctx : CtxO) (st : St) : St :=
  match runBody ctx st with
  | (Except.ok _, st) => st
  | (Except.error e, st) =>
      { st with progress := st.progress ++ [(100, "Failed: " ++ format_exc e)] }

/-! Helper lemmas about the Python string models. -/

theorem toNat_ofNat_valid (n : Nat) (h : n < 55296) : (Char.ofNat n).toNat = n := by
  simp [Char.ofNat, Nat.isValidChar, h, Char.ofNatAux, Char.toNat, UInt32.toNat]

theorem pyLowerChar_idem (c : Char) : pyLowerChar (pyLowerChar c) = pyLowerChar c := by
  unfold pyLowerChar
  by_cases h : 65 ≤ c.toNat ∧ c.toNat ≤ 90
  · rw [if_pos h]
    have hv : (Char.ofNat (c.toNat + 32)).toNat = c.toNat + 32 :=
      toNat_ofNat_valid _ (by omega)
    rw [if_neg (by omega)]
  · rw [if_neg h, if_neg h]

theorem list_map_eq_self {α : Type} (f : α → α) :
    ∀ (l : List α), (∀ c ∈ l, f c = c) → l.map f = l
  | [], _ => rfl
  | a :: l, h => by
    simp only [List.map_cons, List.cons.injEq]
    exact ⟨h a (List.mem_cons_self a l),
           list_map_eq_self f l fun c hc => h c (List.mem_cons_of_mem a hc)⟩

theorem pyLower_eq_self (s : String) (h : ∀ c ∈ s.data, pyLowerChar c = c) :
    pyLower s = s := by
  unfold pyLower
  apply String.ext
  exact list_map_eq_self _ _ h

theorem mem_of_mem_dropWhile {α : Type} (p : α → Bool) (l : List α) (a : α)
    (h : a ∈ l.dropWhile p) : a ∈ l :=
  (List.dropWhile_sublist p).mem h

theorem pyStrip_mem (s : String) (c : Char) (h : c ∈ (pyStrip s).data) :
    c ∈ s.data := by
  unfold pyStrip at h
  simp only at h
  rw [List.mem_reverse] at h
  have h2 := mem_of_mem_dropWhile _ _ _ h
  rw [List.mem_reverse] at h2
  exact mem_of_mem_dropWhile _ _ _ h2

theorem pyLower_pyStrip_pyLower (s : String) :
    pyLower (pyStrip (pyLower s)) = pyStrip (pyLower s) := by
  apply pyLower_eq_self
  intro c hc
  have hmem : c ∈ (pyLower s).data := pyStrip_mem _ _ hc
  unfold pyLower at hmem
  simp only [List.mem_map] at hmem
  obtain ⟨a, _, rfl⟩ := hmem
  exact pyLowerChar_idem a

/-- The value component of `get_labelling` on a present `labelling` setting:
`"--casl"` is appended exactly when the lowered, stripped value is `"pcasl"`. -/
theorem get_labelling_ok (ctx : CtxO) (cmd : List String) (p : Nat) (st : St)
    (raw : String) (h : ctx.settings.lookup "labelling" = some raw) :
    (get_labelling ctx cmd p st).1 =
      Except.ok (if pyStrip (pyLower raw) = "pcasl" then cmd ++ ["--casl"]
                 else cmd) := by
  unfold get_labelling getSetting
  rw [h]
  simp only [pyLower_pyStrip_pyLower]
  by_cases hc : pyStrip (pyLower raw) = "pcasl"
  · rw [if_pos hc, if_pos hc]
  · rw [if_neg hc, if_neg hc]

/-- The value component of `get_timings` on a present `plds` setting. -/
theorem get_timings_ok (ctx : CtxO) (cmd : List String) (p : Nat) (st : St)
    (plds : String) (h : ctx.settings.lookup "plds" = some plds) :
    (get_timings ctx cmd p st).1 =
      Except.ok (cmd ++ (if cmd.contains "--casl" then ["--plds", plds]
                         else ["--tis", plds])) := by
  unfold get_timings getSetting
  rw [h]
  by_cases hc : "--casl" ∈ cmd
  · simp [hc]
  · simp [hc]

/-- Fully concrete oracle used by witness theorems, parameterised over the
settings dict; every external interaction succeeds and is benign. -/
def mkCtx (settings : List (String × String)) : CtxO where
  getFiles := fun _ => Except.ok []
  settings := settings
  fslEnv := Except.ok "A=B"
  dcm2niix := fun _ => Except.ok ()
  nibShape := fun _ => Except.ok [64, 64, 24]
  listdir := fun _ => []
  oxasl := fun _ => Except.ok ""
  logfileExists := false
  versionFile := Except.ok "1.0"
  fetchAnalysis := Except.ok ()
  uploadResult := fun _ _ => Except.ok ()

/-- C8: `get_labelling` appends `"--casl"` iff the `labelling` setting,
lowercased and stripped, is exactly `"pcasl"`; any other value (including
`"casl"`) leaves the command unchanged, and then `get_timings` passes the
timing value as TIs. -/
theorem c8_casl_iff_pcasl (ctx : CtxO) (cmd : List String)
    (p p2 : Nat) (st st2 : St) (raw plds : String)
    (hlab : ctx.settings.lookup "labelling" = some raw)
    (hplds : ctx.settings.lookup "plds" = some plds) :
    (get_labelling ctx cmd p st).1 =
      Except.ok (if pyStrip (pyLower raw) = "pcasl" then cmd ++ ["--casl"]
                 else cmd)
    ∧ (pyStrip (pyLower raw) ≠ "pcasl" → "--casl" ∉ cmd →
        (get_timings ctx cmd p2 st2).1 = Except.ok (cmd ++ ["--tis", plds])) := by
  refine ⟨get_labelling_ok ctx cmd p st raw hlab, fun hne hnotin => ?_⟩
  rw [get_timings_ok ctx cmd p2 st2 plds hplds]
  simp [hnotin]

/-- Witness for C8 at the settings value `"CASL"`: no `"--casl"` flag is
added and the timings are passed as TIs. -/
theorem c8_casl_iff_pcasl_witness :
    (get_labelling (mkCtx [("labelling", "CASL"), ("plds", "1.6")])
        ["oxasl"] 21 {}).1 =
      Except.ok (if pyStrip (pyLower "CASL") = "pcasl" then
                   ["oxasl"] ++ ["--casl"] else ["oxasl"])
    ∧ (get_timings (mkCtx [("labelling", "CASL"), ("plds", "1.6")])
        ["oxasl"] 22 {}).1 = Except.ok (["oxasl"] ++ ["--tis", "1.6"]) := by
  have h := c8_casl_iff_pcasl (mkCtx [("labelling", "CASL"), ("plds", "1.6")])
    ["oxasl"] 21 22 {} {} "CASL" "1.6" (by decide) (by decide)
  exact ⟨h.1, h.2 (by decide) (by decide)⟩

/-- C1: given a command not yet containing `"--casl"`, `get_labelling` put
`"--casl"` into the command exactly when its result extends the command with
that flag, and `get_timings` appends `["--plds", plds]` when `"--casl"` is
in the command and `["--tis", plds]` otherwise: the flag choice is
determined exactly by whether `get_labelling` added `"--casl"`. -/
theorem c1_timing_flag_matches_labelling (ctx : CtxO) (cmd cmd1 : List String)
    (p1 p2 : Nat) (st1 st2 : St) (raw plds : String)
    (hn : "--casl" ∉ cmd)
    (hlab : ctx.settings.lookup "labelling" = some raw)
    (hplds : ctx.settings.lookup "plds" = some plds)
    (hres : (get_labelling ctx cmd p1 st1).1 = Except.ok cmd1) :
    ("--casl" ∈ cmd1 ↔ cmd1 = cmd ++ ["--casl"])
    ∧ (get_timings ctx cmd1 p2 st2).1 =
        Except.ok (cmd1 ++ (if "--casl" ∈ cmd1 then ["--plds", plds]
                            else ["--tis", plds])) := by
  rw [get_labelling_ok ctx cmd p1 st1 raw hlab] at hres
  have hcmd1 : cmd1 = if pyStrip (pyLower raw) = "pcasl" then
      cmd ++ ["--casl"] else cmd := by
    injection hres.symm
  by_cases hcond : pyStrip (pyLower raw) = "pcasl"
  · rw [if_pos hcond] at hcmd1
    subst hcmd1
    have hmem : "--casl" ∈ cmd ++ ["--casl"] := by simp
    refine ⟨⟨fun _ => rfl, fun _ => hmem⟩, ?_⟩
    rw [get_timings_ok ctx _ p2 st2 plds hplds]
    simp [hmem]
  · rw [if_neg hcond] at hcmd1
    rw [hcmd1]
    have haux : cmd ≠ cmd ++ ["--casl"] := by simp
    refine ⟨⟨fun hm => absurd hm hn, fun he => absurd he haux⟩, ?_⟩
    rw [get_timings_ok ctx _ p2 st2 plds hplds]
    simp [hn]

/-- Witness for C1 at the settings value `" pCASL "`: `get_labelling` adds
`"--casl"` and `get_timings` then picks `"--plds"`. -/
theorem c1_timing_flag_matches_labelling_witness :
    ("--casl" ∈ (["oxasl", "--casl"] : List String) ↔
      (["oxasl", "--casl"] : List String) = ["oxasl"] ++ ["--casl"])
    ∧ (get_timings (mkCtx [("labelling", " pCASL "), ("plds", "1.8")])
        ["oxasl", "--casl"] 22 {}).1 =
        Except.ok (["oxasl", "--casl"] ++
          (if "--casl" ∈ (["oxasl", "--casl"] : List String) then
             ["--plds", "1.8"] else ["--tis", "1.8"])) :=
  c1_timing_flag_matches_labelling
    (mkCtx [("labelling", " pCASL "), ("plds", "1.8")])
    ["oxasl"] ["oxasl", "--casl"] 21 22 {} {} " pCASL " "1.8"
    (by decide) (by decide) (by decide) (by rfl)

/-- C2: `get_input_data` raises on more than one file handler for a key, on
zero handlers when the key is required, and hence a required key is accepted
with exactly one handler. -/
theorem c2_exactly_one_file_per_key (ctx : CtxO) (cmd : List String)
    (key name option : String) (p : Nat) (st : St) :
    (∀ (required : Bool) (fhs : List FileHandler),
      ctx.getFiles key = Except.ok fhs → 1 < fhs.length →
      (get_input_data ctx cmd key name option p required st).1 =
        Except.error (PyExc.runtimeError
          ("Expected single input file for " ++ key ++ " - found " ++
            toString fhs.length ++ " instead")))
    ∧ (ctx.getFiles key = Except.ok [] →
      (get_input_data ctx cmd key name option p true st).1 =
        Except.error (PyExc.runtimeError
          ("Required data " ++ key ++ " not provided")))
    ∧ (∀ r, (get_input_data ctx cmd key name option p true st).1 =
        Except.ok r →
        ∃ fhs, ctx.getFiles key = Except.ok fhs ∧ fhs.length = 1) := by
  refine ⟨?_, ?_, ?_⟩
  · intro required fhs hf hlen
    have h0 : ¬(fhs.length = 0) := by omega
    unfold get_input_data
    rw [hf]
    simp only [h0, if_false, hlen, if_true, gt_iff_lt, ite_true, ite_false]
  · intro hf
    unfold get_input_data
    rw [hf]
    simp
  · intro r hr
    cases hgf : ctx.getFiles key with
    | error e =>
      unfold get_input_data at hr
      rw [hgf] at hr
      simp at hr
    | ok fhs =>
      refine ⟨fhs, rfl, ?_⟩
      by_contra hne
      rcases Nat.lt_or_ge fhs.length 1 with hlt | hge
      · have h0 : fhs.length = 0 := by omega
        unfold get_input_data at hr
        rw [hgf] at hr
        simp [h0] at hr
      · have h1 : 1 < fhs.length := by omega
        have h0 : ¬(fhs.length = 0) := by omega
        unfold get_input_data at hr
        rw [hgf] at hr
        simp [h0, h1] at hr

/-- Witness for C2: two handlers for the required key `asl` are rejected. -/
theorem c2_exactly_one_file_per_key_witness :
    (get_input_data
        { (mkCtx []) with getFiles := (fun _ =>
            Except.ok [⟨fun _ => "/a.nii"⟩, ⟨fun _ => "/b.nii"⟩]) }
        ["oxasl"] "asl" "ASL" "-i" 11 true {}).1 =
      Except.error (PyExc.runtimeError
        ("Expected single input file for " ++ "asl" ++ " - found " ++
          toString (2 : Nat) ++ " instead")) :=
  (c2_exactly_one_file_per_key
      { (mkCtx []) with getFiles := (fun _ =>
          Except.ok [⟨fun _ => "/a.nii"⟩, ⟨fun _ => "/b.nii"⟩]) }
      ["oxasl"] "asl" "ASL" "-i" 11 {}).1
    true [⟨fun _ => "/a.nii"⟩, ⟨fun _ => "/b.nii"⟩] rfl (by decide)

/-- C9: when the key is optional and no file handler is found,
`get_input_data` succeeds and changes nothing except recording the
phase-entry marker: the command list is returned exactly as given and no
progress, upload, write, copy or converter effect occurs. -/
theorem c9_optional_missing_is_noop (ctx : CtxO) (cmd : List String)
    (key name option : String) (p : Nat) (st : St)
    (h : ctx.getFiles key = Except.ok []) :
    get_input_data ctx cmd key name option p false st =
      (Except.ok cmd, { st with events := st.events ++ [Event.getInput key] }) := by
  unfold get_input_data
  rw [h]
  simp

/-- Witness for C9: an optional key with no files returns the command
unchanged. -/
theorem c9_optional_missing_is_noop_witness :
    get_input_data (mkCtx []) ["oxasl", "-i", "/x.nii"] "struc" "structural"
        "-s" 12 false {} =
      (Except.ok ["oxasl", "-i", "/x.nii"],
       { ({} : St) with events := [Event.getInput "struc"] }) :=
  c9_optional_missing_is_noop (mkCtx []) ["oxasl", "-i", "/x.nii"] "struc"
    "structural" "-s" 12 {} rfl

/-- C10: an exception from `context.get_files` is swallowed and treated as
zero files: a required key then fails with the `Required data` error, an
optional key returns silently with the command unchanged. -/
theorem c10_get_files_exception_as_empty (ctx : CtxO) (cmd : List String)
    (key name option : String) (p : Nat) (st : St) (e : PyExc)
    (h : ctx.getFiles key = Except.error e) :
    (get_input_data ctx cmd key name option p true st).1 =
      Except.error (PyExc.runtimeError
        ("Required data " ++ key ++ " not provided"))
    ∧ get_input_data ctx cmd key name option p false st =
      (Except.ok cmd, { st with events := st.events ++ [Event.getInput key] }) := by
  constructor
  · unfold get_input_data
    rw [h]
    simp
  · unfold get_input_data
    rw [h]
    simp

/-- Witness for C10: a raising `get_files` yields the `Required data` error
for the required key and a silent no-op for the optional one. -/
theorem c10_get_files_exception_as_empty_witness :
    (get_input_data
        { (mkCtx []) with getFiles := (fun _ => Except.error (PyExc.other "boom")) }
        ["oxasl"] "asl" "ASL" "-i" 11 true {}).1 =
      Except.error (PyExc.runtimeError
        ("Required data " ++ "asl" ++ " not provided"))
    ∧ get_input_data
        { (mkCtx []) with getFiles := (fun _ => Except.error (PyExc.other "boom")) }
        ["oxasl"] "asl" "ASL" "-i" 11 false {} =
      (Except.ok ["oxasl"],
       { ({} : St) with events := [Event.getInput "asl"] }) :=
  c10_get_files_exception_as_empty
    { (mkCtx []) with getFiles := (fun _ => Except.error (PyExc.other "boom")) }
    ["oxasl"] "asl" "ASL" "-i" 11 {} (PyExc.other "boom") rfl


/-- The DICOM branch always records one converter invocation on the key. -/
theorem convertAndExtend_calls (ctx : CtxO) (oxasl_cmd : List String)
    (key name option niftidir : String) (p : Nat) (st : St) :
    (convertAndExtend ctx oxasl_cmd key name option niftidir p st).2.converterCalls
      = st.converterCalls ++ [key] := by
  unfold convertAndExtend dicomConvert
  cases hd : ctx.dcm2niix key with
  | error out => simp [hd]
  | ok u =>
    cases hn : ctx.nibShape (niftidir ++ "/" ++ key ++ ".nii.gz") with
    | error e => cases e <;> simp [hd, hn]
    | ok shape =>
      cases hu : ctx.uploadResult (niftidir ++ "/" ++ key ++ ".nii.gz")
          (key ++ ".nii.gz") with
      | error e => cases e <;> simp [hd, hn, hu]
      | ok u2 => simp [hd, hn, hu]

/-- A converter failure surfaces as the `RuntimeError` naming the key. -/
theorem convertAndExtend_err (ctx : CtxO) (oxasl_cmd : List String)
    (key name option niftidir : String) (p : Nat) (st : St) (out : String)
    (hd : ctx.dcm2niix key = Except.error out) :
    (convertAndExtend ctx oxasl_cmd key name option niftidir p st).1 =
      Except.error (PyExc.runtimeError
        ("Failed to perform DCM-NII conversion on " ++ key ++ ": " ++ out)) := by
  unfold convertAndExtend dicomConvert
  simp [hd]

/-- A successful DICOM branch extends the command with the option flag and
the converted NIfTI path. -/
theorem convertAndExtend_ok (ctx : CtxO) (oxasl_cmd : List String)
    (key name option niftidir : String) (p : Nat) (st : St) (r : List String)
    (hr : (convertAndExtend ctx oxasl_cmd key name option niftidir p st).1 =
      Except.ok r) :
    r = oxasl_cmd ++ [option, niftidir ++ "/" ++ key ++ ".nii.gz"] := by
  unfold convertAndExtend dicomConvert at hr
  cases hd : ctx.dcm2niix key with
  | error out => simp [hd] at hr
  | ok u =>
    cases hn : ctx.nibShape (niftidir ++ "/" ++ key ++ ".nii.gz") with
    | error e => cases e <;> simp [hd, hn] at hr
    | ok shape =>
      cases hu : ctx.uploadResult (niftidir ++ "/" ++ key ++ ".nii.gz")
          (key ++ ".nii.gz") with
      | error e => cases e <;> simp [hd, hn, hu] at hr
      | ok u2 =>
        simp [hd, hn, hu] at hr
        exact hr.symm

/-- C5: with a single downloaded file, a path ending in `.nii` or `.nii.gz`
is taken as NIfTI: it is copied into the per-key nifti directory and the
converter is not invoked; any other path goes through the converter, whose
failure raises an error naming the key; every successful outcome appends
the option flag followed by the resulting NIfTI path to the command. -/
theorem c5_nifti_detect_or_convert (ctx : CtxO) (cmd : List String)
    (key name option : String) (p : Nat) (required : Bool) (st : St)
    (fh : FileHandler) (path : String)
    (h : ctx.getFiles key = Except.ok [fh])
    (hpath : path = fh.download ("/root/dicom/" ++ key)) :
    ((pyEndsWith path ".nii" || pyEndsWith path ".nii.gz") = true →
      (get_input_data ctx cmd key name option p required st).1 =
        Except.ok (cmd ++ [option, "/root/nifti/" ++ key ++ "/" ++ basename path])
      ∧ (get_input_data ctx cmd key name option p required st).2.converterCalls
          = st.converterCalls
      ∧ (get_input_data ctx cmd key name option p required st).2.copies
          = st.copies ++ [(path, "/root/nifti/" ++ key)])
    ∧ ((pyEndsWith path ".nii" || pyEndsWith path ".nii.gz") = false →
      (get_input_data ctx cmd key name option p required st).2.converterCalls
          = st.converterCalls ++ [key]
      ∧ (∀ out, ctx.dcm2niix key = Except.error out →
          (get_input_data ctx cmd key name option p required st).1 =
            Except.error (PyExc.runtimeError
              ("Failed to perform DCM-NII conversion on " ++ key ++ ": " ++ out))))
    ∧ (∀ r, (get_input_data ctx cmd key name option p required st).1 =
        Except.ok r → ∃ pth, r = cmd ++ [option, pth]) := by
  subst hpath
  refine ⟨?_, ?_, ?_⟩
  · intro hnii
    unfold get_input_data
    rw [h]
    simp [hnii]
  · intro hnotnii
    obtain ⟨ha, hb⟩ := Bool.or_eq_false_iff.mp hnotnii
    constructor
    · unfold get_input_data
      rw [h]
      simp [ha, hb, convertAndExtend_calls]
    · intro out hd
      unfold get_input_data
      rw [h]
      simp [ha, hb, convertAndExtend_err ctx cmd key name option
        ("/root/nifti/" ++ key) p _ out hd]
  · intro r hr
    unfold get_input_data at hr
    rw [h] at hr
    by_cases hnii : (pyEndsWith (fh.download ("/root/dicom/" ++ key)) ".nii" ||
        pyEndsWith (fh.download ("/root/dicom/" ++ key)) ".nii.gz") = true
    · simp [hnii] at hr
      exact ⟨_, hr.symm⟩
    · rw [Bool.not_eq_true] at hnii
      obtain ⟨ha, hb⟩ := Bool.or_eq_false_iff.mp hnii
      simp [ha, hb] at hr
      exact ⟨_, convertAndExtend_ok ctx cmd key name option
        ("/root/nifti/" ++ key) p _ r hr⟩

/-- Witness for C5: a downloaded `.nii.gz` file is accepted without
conversion and the command gains `-i` with the copied NIfTI path. -/
theorem c5_nifti_detect_or_convert_witness :
    (get_input_data
        { (mkCtx []) with getFiles :=
            (fun _ => Except.ok [⟨fun d => d ++ "/scan.nii.gz"⟩]) }
        ["oxasl"] "asl" "ASL" "-i" 11 true {}).1 =
      Except.ok (["oxasl"] ++
        ["-i", "/root/nifti/" ++ "asl" ++ "/" ++
          basename "/root/dicom/asl/scan.nii.gz"])
    ∧ (get_input_data
        { (mkCtx []) with getFiles :=
            (fun _ => Except.ok [⟨fun d => d ++ "/scan.nii.gz"⟩]) }
        ["oxasl"] "asl" "ASL" "-i" 11 true {}).2.converterCalls =
      ({} : St).converterCalls
    ∧ (get_input_data
        { (mkCtx []) with getFiles :=
            (fun _ => Except.ok [⟨fun d => d ++ "/scan.nii.gz"⟩]) }
        ["oxasl"] "asl" "ASL" "-i" 11 true {}).2.copies =
      ({} : St).copies ++ [("/root/dicom/asl/scan.nii.gz", "/root/nifti/" ++ "asl")] :=
  (c5_nifti_detect_or_convert
      { (mkCtx []) with getFiles :=
          (fun _ => Except.ok [⟨fun d => d ++ "/scan.nii.gz"⟩]) }
      ["oxasl"] "asl" "ASL" "-i" 11 true {}
      ⟨fun d => d ++ "/scan.nii.gz"⟩ "/root/dicom/asl/scan.nii.gz"
      rfl rfl).1 (by decide)

/-- Parse of one `env` output line: the unpack `key, value = line.split("=")`
succeeds exactly on a two-part split. -/
def parseEnvLine (line : String) : Option (String × String) :=
  match pySplit line '=' with
  | [k, v] => some (k, v)
  | _ => none

/-- Warning message produced for a line whose unpack raises `ValueError`. -/
def warnLine (progressVal : Nat) (line : String) : Option (Nat × String) :=
  match pySplit line '=' with
  | [_, _] => none
  | _ => some (progressVal, "WARNING: Setting up FSL - failed to parse " ++ line)

/-- Characterization of the `setup_fsl` parsing loop: parsed pairs go to the
environment (most recent first), unparseable lines each yield one warning
message, and nothing else changes. -/
theorem foldl_processLine (p : Nat) :
    ∀ (lines : List String) (st : St),
      (lines.foldl (processLine p) st).env =
        (lines.filterMap parseEnvLine).reverse ++ st.env
      ∧ (lines.foldl (processLine p) st).progress =
        st.progress ++ lines.filterMap (warnLine p)
      ∧ (lines.foldl (processLine p) st).events = st.events
  | [], st => by simp
  | line :: rest, st => by
    have ih := foldl_processLine p rest (processLine p st line)
    refine ⟨?_, ?_, ?_⟩
    · rw [List.foldl_cons, ih.1]
      unfold processLine parseEnvLine
      cases hs : pySplit line '=' with
      | nil => simp [List.filterMap_cons, hs]
      | cons a t =>
        cases t with
        | nil => simp [List.filterMap_cons, hs]
        | cons b t2 =>
          cases t2 with
          | nil => simp [List.filterMap_cons, hs]
          | cons c t3 => simp [List.filterMap_cons, hs]
    · rw [List.foldl_cons, ih.2.1]
      unfold processLine warnLine
      cases hs : pySplit line '=' with
      | nil => simp [List.filterMap_cons, hs]
      | cons a t =>
        cases t with
        | nil => simp [List.filterMap_cons, hs]
        | cons b t2 =>
          cases t2 with
          | nil => simp [List.filterMap_cons, hs]
          | cons c t3 => simp [List.filterMap_cons, hs]
    · rw [List.foldl_cons, ih.2.2]
      unfold processLine
      cases hs : pySplit line '=' with
      | nil => simp [List.filterMap_cons, hs]
      | cons a t =>
        cases t with
        | nil => simp [List.filterMap_cons, hs]
        | cons b t2 =>
          cases t2 with
          | nil => simp [List.filterMap_cons, hs]
          | cons c t3 => simp [List.filterMap_cons, hs]

/-- C6: `setup_fsl` sets `FSLDIR`, enters every parsed `KEY=VALUE` line of
the child process's reported environment into the environment, emits only a
warning for each line that fails to parse, and raises a `RuntimeError` when
the setup-script child process itself fails. -/
theorem c6_setup_fsl_env (ctx : CtxO) (p : Nat) (st : St) :
    (∀ out, ctx.fslEnv = Except.error out →
      setup_fsl ctx p st =
        (Except.error (PyExc.runtimeError
          ("WARNING: Failed to execute FSL setup script: " ++ out)),
         { st with events := st.events ++ [Event.setupFsl],
                   env := ("FSLDIR", "/usr/local/fsl") :: st.env }))
    ∧ (∀ output, ctx.fslEnv = Except.ok output →
      (setup_fsl ctx p st).1 = Except.ok ()
      ∧ (setup_fsl ctx p st).2.env =
          ((pySplit output '\n').filterMap parseEnvLine).reverse ++
            ("FSLDIR", "/usr/local/fsl") :: st.env
      ∧ (setup_fsl ctx p st).2.progress =
          st.progress ++ (pySplit output '\n').filterMap (warnLine p) ++
            [(p, "Set up FSL environment")]) := by
  constructor
  · intro out hf
    unfold setup_fsl
    rw [hf]
  · intro output hf
    unfold setup_fsl
    rw [hf]
    have hfold := foldl_processLine p (pySplit output '\n')
      { st with events := st.events ++ [Event.setupFsl],
                env := ("FSLDIR", "/usr/local/fsl") :: st.env }
    exact ⟨rfl, by simp [hfold.1], by simp [hfold.2.1]⟩

/-- Concrete oracle for the C6 witness: one parseable line, one
unparseable line in the reported environment. -/
def ctxC6 : CtxO :=
  { (mkCtx []) with fslEnv :=
      (Except.ok "PATH=/usr/bin\nBADLINE\nFSLOUTPUTTYPE=NIFTI_GZ") }

/-- Witness for C6: one parseable line, one unparseable line. -/
theorem c6_setup_fsl_env_witness :
    (setup_fsl ctxC6 1 {}).1 = Except.ok ()
    ∧ (setup_fsl ctxC6 1 {}).2.env =
      [("FSLOUTPUTTYPE", "NIFTI_GZ"), ("PATH", "/usr/bin"),
       ("FSLDIR", "/usr/local/fsl")]
    ∧ (setup_fsl ctxC6 1 {}).2.progress =
      [(1, "WARNING: Setting up FSL - failed to parse BADLINE"),
       (1, "Set up FSL environment")] := by
  have h := (c6_setup_fsl_env ctxC6 1 {}).2
    "PATH=/usr/bin\nBADLINE\nFSLOUTPUTTYPE=NIFTI_GZ" (by rfl)
  exact ⟨h.1, h.2.1.trans (by decide), h.2.2.trans (by decide)⟩

/-- C3: `run` catches every exception its body raises, reports it through
exactly one `set_progress` call at value 100 with a message beginning
`Failed:` followed by the formatted traceback, and (being a total function
into `St`) returns normally. -/
theorem c3_run_catches_all (ctx : CtxO) (st : St) (e : PyExc) (st2 : St)
    (h : runBody ctx st = (Except.error e, st2)) :
    run ctx st = { st2 with progress := st2.progress ++
        [(100, "Failed: " ++ format_exc e)] } := by
  unfold run
  rw [h]

/-- Concrete failing state for the C3 witness: the required `asl` input is
missing, so `runBody` raises after bootstrap and input query. -/
def stC3 : St :=
  { env := [("A", "B"), ("FSLDIR", "/usr/local/fsl")],
    progress := [(0, "Running OXASL analysis tool v1.0"),
                 (1, "Set up FSL environment"),
                 (10, "Getting input data in NIFTI format")],
    events := [Event.setupFsl, Event.getInput "asl"] }

/-- Witness for C3: on a context with no input files, `run` ends with the
single `Failed:` progress report at value 100. -/
theorem c3_run_catches_all_witness :
    run (mkCtx []) {} = { stC3 with progress := stC3.progress ++
        [(100, "Failed: " ++
          format_exc (PyExc.runtimeError "Required data asl not provided"))] } :=
  c3_run_catches_all (mkCtx []) {}
    (PyExc.runtimeError "Required data asl not provided") stC3 (by rfl)

/-- A successful logfile-upload tail records the logfile upload. -/
theorem uploadLogTail_ok_mem (ctx : CtxO) (st : St)
    (h : (uploadLogTail ctx st).1 = Except.ok ()) :
    ("oxasl_output/logfile", "logfile.txt") ∈ (uploadLogTail ctx st).2.uploads := by
  unfold uploadLogTail at h ⊢
  cases hu : ctx.uploadResult "oxasl_output/logfile" "logfile.txt" with
  | error e => rw [hu] at h; simp at h
  | ok u => simp [hu]

/-- Whenever the post-invocation dispatch succeeds, the logfile upload is
among its uploads. -/
theorem handleOxaslResult_ok_mem (ctx : CtxO) (r : Except PyExc Unit × St)
    (h : (handleOxaslResult ctx r).1 = Except.ok ()) :
    ("oxasl_output/logfile", "logfile.txt") ∈ (handleOxaslResult ctx r).2.uploads := by
  rcases r with ⟨res, st2⟩
  cases res with
  | ok u => exact uploadLogTail_ok_mem ctx st2 h
  | error e =>
    cases e with
    | calledProcessError out =>
      by_cases hl : ctx.logfileExists
      · simp only [handleOxaslResult, if_pos hl] at h ⊢
        exact uploadLogTail_ok_mem ctx _ h
      · simp only [handleOxaslResult, if_neg hl] at h ⊢
        exact uploadLogTail_ok_mem ctx _ h
    | runtimeError m => simp [handleOxaslResult] at h
    | keyError k => simp [handleOxaslResult] at h
    | other m => simp [handleOxaslResult] at h

/-- C4: a non-zero oxasl exit does not fail the run; the existing logfile is
kept as log source when present and the captured stdout is written to it
otherwise, and in success and failure alike the logfile is uploaded under
the name `logfile.txt`. -/
theorem c4_oxasl_failure_logfile (ctx : CtxO) (cmd : List String) (st : St) :
    (∀ out, ctx.oxasl cmd = Except.error out →
      ctx.uploadResult "oxasl_output/logfile" "logfile.txt" = Except.ok () →
      (runOxaslAndUpload ctx cmd st).1 = Except.ok ()
      ∧ (runOxaslAndUpload ctx cmd st).2.writes =
          (if ctx.logfileExists then st.writes
           else st.writes ++ [("oxasl_output/logfile", out)])
      ∧ ("oxasl_output/logfile", "logfile.txt") ∈
          (runOxaslAndUpload ctx cmd st).2.uploads)
    ∧ ((runOxaslAndUpload ctx cmd st).1 = Except.ok () →
      ("oxasl_output/logfile", "logfile.txt") ∈
        (runOxaslAndUpload ctx cmd st).2.uploads) := by
  constructor
  · intro out hx hup
    unfold runOxaslAndUpload oxaslTry handleOxaslResult
    rw [hx]
    by_cases hl : ctx.logfileExists
    · simp only [if_pos hl]
      unfold uploadLogTail
      rw [hup]
      refine ⟨rfl, by simp [hl], by simp⟩
    · simp only [if_neg hl]
      unfold uploadLogTail
      rw [hup]
      refine ⟨rfl, by simp [hl], by simp⟩
  · intro hok
    unfold runOxaslAndUpload at hok ⊢
    exact handleOxaslResult_ok_mem ctx _ hok

/-- Concrete oracle for the C4 witness: oxasl fails, no logfile exists. -/
def ctxC4 : CtxO :=
  { (mkCtx []) with oxasl := (fun _ => Except.error "oxasl blew up"),
                    logfileExists := false }

/-- Witness for C4: a failed oxasl run writes its stdout to the logfile and
still uploads the logfile as `logfile.txt`. -/
theorem c4_oxasl_failure_logfile_witness :
    (runOxaslAndUpload ctxC4 ["oxasl"] {}).1 = Except.ok ()
    ∧ (runOxaslAndUpload ctxC4 ["oxasl"] {}).2.writes =
        (if ctxC4.logfileExists then ({} : St).writes
         else ({} : St).writes ++ [("oxasl_output/logfile", "oxasl blew up")])
    ∧ ("oxasl_output/logfile", "logfile.txt") ∈
        (runOxaslAndUpload ctxC4 ["oxasl"] {}).2.uploads :=
  (c4_oxasl_failure_logfile ctxC4 ["oxasl"] {}).1 "oxasl blew up"
    (by rfl) (by rfl)

/-! Event-trace lemmas for the temporal-ordering claim. -/

/-- The fixed order of phase-entry events on a run reaching the oxasl
invocation. -/
def phaseList : List Event :=
  [Event.setupFsl, Event.getInput "asl", Event.getInput "struc",
   Event.labelling, Event.timings, Event.invokeOxasl]

theorem setup_fsl_events (ctx : CtxO) (p : Nat) (st : St) :
    (setup_fsl ctx p st).2.events = st.events ++ [Event.setupFsl] := by
  unfold setup_fsl
  cases hf : ctx.fslEnv with
  | error out => simp
  | ok output =>
    have hfold := foldl_processLine p (pySplit output '\n')
      { st with events := st.events ++ [Event.setupFsl],
                env := ("FSLDIR", "/usr/local/fsl") :: st.env }
    simp [hfold.2.2]

theorem dicomConvert_events (ctx : CtxO) (key name niftidir : String)
    (p : Nat) (st : St) :
    (dicomConvert ctx key name niftidir p st).2.events = st.events := by
  unfold dicomConvert
  cases hd : ctx.dcm2niix key with
  | error out => simp [hd]
  | ok u =>
    cases hn : ctx.nibShape (niftidir ++ "/" ++ key ++ ".nii.gz") with
    | error e => simp [hd, hn]
    | ok shape =>
      cases hu : ctx.uploadResult (niftidir ++ "/" ++ key ++ ".nii.gz")
          (key ++ ".nii.gz") with
      | error e => simp [hd, hn, hu]
      | ok u2 => simp [hd, hn, hu]

theorem convertAndExtend_events (ctx : CtxO) (oxasl_cmd : List String)
    (key name option niftidir : String) (p : Nat) (st : St) :
    (convertAndExtend ctx oxasl_cmd key name option niftidir p st).2.events
      = st.events := by
  unfold convertAndExtend
  have hd := dicomConvert_events ctx key name niftidir p st
  rcases hc : dicomConvert ctx key name niftidir p st with ⟨res, st2⟩
  rw [hc] at hd
  cases res with
  | ok path => simpa using hd
  | error e => cases e <;> simpa using hd

theorem get_input_data_events (ctx : CtxO) (cmd : List String)
    (key name option : String) (p : Nat) (required : Bool) (st : St) :
    (get_input_data ctx cmd key name option p required st).2.events
      = st.events ++ [Event.getInput key] := by
  unfold get_input_data
  cases hg : ctx.getFiles key with
  | error e =>
    cases required <;> simp
  | ok fhs =>
    by_cases h0 : fhs.length = 0
    · cases required <;> simp [h0]
    · by_cases h1 : fhs.length > 1
      · simp [h0, h1]
      · rw [if_neg h0, if_neg h1]
        split
        · next x a heq => exact Except.noConfusion heq
        · next x fhs2 heq =>
          injection heq with h2
          subst h2
          dsimp only
          split
          · simp
          · simp [convertAndExtend_events]

theorem get_labelling_events (ctx : CtxO) (cmd : List String) (p : Nat)
    (st : St) :
    (get_labelling ctx cmd p st).2.events = st.events ++ [Event.labelling] := by
  unfold get_labelling getSetting
  cases hs : ctx.settings.lookup "labelling" with
  | none => simp
  | some raw =>
    by_cases hc : pyLower (pyStrip (pyLower raw)) = "pcasl" <;> simp [hc]

theorem get_timings_events (ctx : CtxO) (cmd : List String) (p : Nat)
    (st : St) :
    (get_timings ctx cmd p st).2.events = st.events ++ [Event.timings] := by
  unfold get_timings getSetting
  cases hs : ctx.settings.lookup "plds" with
  | none => simp
  | some plds =>
    by_cases hc : "--casl" ∈ cmd <;> simp [hc]

theorem uploadOutputs_events (ctx : CtxO) :
    ∀ (files : List String) (idx : Nat) (st : St),
      (uploadOutputs ctx files idx st).2.events = st.events
  | [], _, _ => rfl
  | fname :: rest, idx, st => by
    unfold uploadOutputs
    cases hu : ctx.uploadResult ("oxasl_output/output/native/" ++ fname) fname with
    | error e => simp
    | ok u => simp [uploadOutputs_events ctx rest (idx + 1)]

theorem uploadLogTail_events (ctx : CtxO) (st : St) :
    (uploadLogTail ctx st).2.events = st.events ++ [Event.uploadLog] := by
  unfold uploadLogTail
  cases hu : ctx.uploadResult "oxasl_output/logfile" "logfile.txt" with
  | error e => simp
  | ok u => simp

theorem oxaslTry_events (ctx : CtxO) (cmd : List String) (st : St) :
    (oxaslTry ctx cmd st).2.events = st.events ++ [Event.invokeOxasl]
    ∨ (oxaslTry ctx cmd st).2.events =
        st.events ++ [Event.invokeOxasl, Event.uploadOutputs] := by
  unfold oxaslTry
  cases ho : ctx.oxasl cmd with
  | error out => left; simp
  | ok o =>
    right
    simp [uploadOutputs_events ctx (ctx.listdir "oxasl_output/output/native") 0]

theorem handleOxaslResult_events (ctx : CtxO) (r : Except PyExc Unit × St) :
    ∃ tl, (handleOxaslResult ctx r).2.events = r.2.events ++ tl
      ∧ ∀ e ∈ tl, e = Event.uploadOutputs ∨ e = Event.uploadLog := by
  rcases r with ⟨res, st2⟩
  cases res with
  | ok u =>
    exact ⟨[Event.uploadLog], by simpa using uploadLogTail_events ctx st2,
      by simp⟩
  | error e =>
    cases e with
    | calledProcessError out =>
      by_cases hl : ctx.logfileExists
      · refine ⟨[Event.uploadLog], ?_, by simp⟩
        simp only [handleOxaslResult, if_pos hl]
        simpa using uploadLogTail_events ctx _
      · refine ⟨[Event.uploadLog], ?_, by simp⟩
        simp only [handleOxaslResult, if_neg hl]
        simpa using uploadLogTail_events ctx _
    | runtimeError m => exact ⟨[], by simp [handleOxaslResult], by simp⟩
    | keyError k => exact ⟨[], by simp [handleOxaslResult], by simp⟩
    | other m => exact ⟨[], by simp [handleOxaslResult], by simp⟩

theorem runOxaslAndUpload_events (ctx : CtxO) (cmd : List String) (st : St) :
    ∃ tl, (runOxaslAndUpload ctx cmd st).2.events =
        st.events ++ [Event.invokeOxasl] ++ tl
      ∧ ∀ e ∈ tl, e = Event.uploadOutputs ∨ e = Event.uploadLog := by
  unfold runOxaslAndUpload
  obtain ⟨tl, htl, hup⟩ := handleOxaslResult_events ctx
    (oxaslTry ctx cmd { st with progress := st.progress ++
      [(30, "Running OXASL: " ++ pyListStr cmd)] })
  rcases oxaslTry_events ctx cmd { st with progress := st.progress ++
      [(30, "Running OXASL: " ++ pyListStr cmd)] } with hev | hev
  · refine ⟨tl, ?_, hup⟩
    rw [htl, hev]
  · refine ⟨Event.uploadOutputs :: tl, ?_, ?_⟩
    · rw [htl, hev]
      simp
    · intro e he
      rcases List.mem_cons.mp he with rfl | hmem
      · exact Or.inl rfl
      · exact hup e hmem

/-- Shape of the phase-event trace of `runBody` from an empty trace: a
prefix of the canonical phase order followed by upload events only, with the
full six-phase prefix present whenever the oxasl invocation occurred. -/
theorem runBody_events_shape (ctx : CtxO) (st : St) (hst : st.events = []) :
    ∃ k tl, (runBody ctx st).2.events = phaseList.take k ++ tl
      ∧ (∀ e ∈ tl, e = Event.uploadOutputs ∨ e = Event.uploadLog)
      ∧ (Event.invokeOxasl ∈ (runBody ctx st).2.events → k = 6) := by
  unfold runBody
  dsimp only
  cases hf : ctx.fetchAnalysis with
  | error e =>
    refine ⟨0, [], ?_, ?_, ?_⟩ <;> simp [hst]
  | ok u =>
    dsimp only
    split
    · next e s1 heq =>
      have h2 := congrArg (fun q => q.2.events) heq
      dsimp only at h2
      rw [setup_fsl_events] at h2
      simp only [hst] at h2
      refine ⟨1, [], ?_, by simp, ?_⟩
      · simp [phaseList, ← h2]
      · intro hinv
        rw [← h2] at hinv
        simp at hinv
    · next u1 s1 heq =>
      have h1 := congrArg (fun q => q.2.events) heq
      dsimp only at h1
      rw [setup_fsl_events] at h1
      simp only [hst] at h1
      split
      · next e s2 heq2 =>
        have h2 := congrArg (fun q => q.2.events) heq2
        dsimp only at h2
        rw [get_input_data_events] at h2
        simp only [← h1] at h2
        simp only [List.nil_append] at h1 h2
        refine ⟨2, [], ?_, by simp, ?_⟩
        · simp [phaseList, ← h2, ← h1]
        · intro hinv
          rw [← h2] at hinv
          simp [← h1] at hinv
      · next cmd2 s2 heq2 =>
        have h2 := congrArg (fun q => q.2.events) heq2
        dsimp only at h2
        rw [get_input_data_events] at h2
        simp only [← h1, List.nil_append] at h2
        split
        · next e s3 heq3 =>
          have h3 := congrArg (fun q => q.2.events) heq3
          dsimp only at h3
          rw [get_input_data_events] at h3
          simp only [← h2] at h3
          refine ⟨3, [], ?_, by simp, ?_⟩
          · simp [phaseList, ← h3]
          · intro hinv
            rw [← h3] at hinv
            simp at hinv
        · next cmd3 s3 heq3 =>
          have h3 := congrArg (fun q => q.2.events) heq3
          dsimp only at h3
          rw [get_input_data_events] at h3
          simp only [← h2] at h3
          split
          · next e s4 heq4 =>
            have h4 := congrArg (fun q => q.2.events) heq4
            dsimp only at h4
            rw [get_labelling_events] at h4
            simp only [← h3] at h4
            refine ⟨4, [], ?_, by simp, ?_⟩
            · simp [phaseList, ← h4]
            · intro hinv
              rw [← h4] at hinv
              simp at hinv
          · next cmd4 s4 heq4 =>
            have h4 := congrArg (fun q => q.2.events) heq4
            dsimp only at h4
            rw [get_labelling_events] at h4
            simp only [← h3] at h4
            split
            · next e s5 heq5 =>
              have h5 := congrArg (fun q => q.2.events) heq5
              dsimp only at h5
              rw [get_timings_events] at h5
              simp only [← h4] at h5
              refine ⟨5, [], ?_, by simp, ?_⟩
              · simp [phaseList, ← h5]
              · intro hinv
                rw [← h5] at hinv
                simp at hinv
            · next cmd5 s5 heq5 =>
              have h5 := congrArg (fun q => q.2.events) heq5
              dsimp only at h5
              rw [get_timings_events] at h5
              simp only [← h4] at h5
              obtain ⟨tl, htl, hup⟩ := runOxaslAndUpload_events ctx cmd5 s5
              refine ⟨6, tl, ?_, hup, fun _ => rfl⟩
              rw [htl, ← h5]
              simp [phaseList]

/-- The top-level handler of `run` only adds a progress message, so the
event trace of `run` is that of its body. -/
theorem run_events (ctx : CtxO) (st : St) :
    (run ctx st).events = (runBody ctx st).2.events := by
  unfold run
  rcases hr : runBody ctx st with ⟨res, st2⟩
  cases res <;> simp

/-- C7: in every execution that reaches the oxasl invocation, the phases
occur in the fixed order bootstrap, `asl` input, `struc` input, labelling,
timings, invocation; everything after the invocation is output or log
upload. -/
theorem c7_phase_order (ctx : CtxO) (st : St) (hst : st.events = [])
    (hinv : Event.invokeOxasl ∈ (run ctx st).events) :
    (run ctx st).events.take 6 = phaseList
    ∧ ∀ e ∈ (run ctx st).events.drop 6,
        e = Event.uploadOutputs ∨ e = Event.uploadLog := by
  rw [run_events] at hinv ⊢
  obtain ⟨k, tl, hev, hup, hk⟩ := runBody_events_shape ctx st hst
  have hk6 : k = 6 := hk hinv
  subst hk6
  have h6 : phaseList.take 6 = phaseList := rfl
  have hlen : phaseList.length = 6 := rfl
  rw [h6] at hev
  constructor
  · rw [hev, ← hlen, List.take_left]
  · intro e he
    rw [hev, ← hlen, List.drop_left] at he
    exact hup e he

/-- Concrete oracle for the C7 witness: a complete successful run with an
`asl` NIfTI input and no `struc` input. -/
def ctxC7 : CtxO :=
  { (mkCtx [("labelling", "pcasl"), ("plds", "1.8")]) with
      getFiles := (fun k =>
        if k = "asl" then Except.ok [⟨fun d => d ++ "/a.nii"⟩]
        else Except.ok []) }

/-- Witness for C7: a run reaching the invocation shows the six phases in
order followed only by upload events. -/
theorem c7_phase_order_witness :
    (run ctxC7 {}).events.take 6 = phaseList
    ∧ ∀ e ∈ (run ctxC7 {}).events.drop 6,
        e = Event.uploadOutputs ∨ e = Event.uploadLog :=
  c7_phase_order ctxC7 {} rfl (by decide)
